import Mathlib

/-!
Verification of the ticket-printing core of the wasla_management desktop
application against its natural-language specification.

The repository contains three variants of the embedded printer service:
* `src/src/services/embeddedPrinterService.ts` (TypeScript, the current
  renderer-side service) — called the *current* implementation below;
* the JavaScript copy embedded in `src/electron/main.ts`
  (`main-printer-service.js`) — called the *electron* variant;
* an older TypeScript duplicate whose path is unknown
  (`src/unnamed/part_004`) — called the *legacy* variant.

Modelling conventions, used throughout:
* Byte buffers are `List Nat` (each entry < 256); `Buffer.concat` is list
  append, `Buffer.from(s,'utf8')` is UTF-8 encoding of the string.
* Monetary amounts are exact decimals with at most three fractional digits
  (TND millimes), modelled as integers counting millimes.  JavaScript
  stores them as binary doubles; for the concrete values appearing in the
  claims (5.0, 0.15, multiples thereof) `Number.prototype.toFixed`
  produces the same digits as exact half-up rounding of the decimal
  value, which is what `toFixed2`/`toFixed3` below implement.
* A JavaScript value that may be `undefined` is an `Option`; JavaScript
  truthiness of a number is `≠ 0` on `some`, falsy on `none`; truthiness
  of a string is non-emptiness (`undefined` strings are folded into `""`
  where the code only uses them in truthiness tests).
* `Date` values are modelled abstractly by the pair of strings that
  `toLocaleDateString('fr-FR')` / `toLocaleTimeString('fr-FR',…)` render
  them to: formatting a timestamp is a pure function of the timestamp,
  and the model only ever consumes these two renderings.
* Socket code (`sendToPrinter`) is modelled as a state machine consuming
  a list of socket-lifecycle events; the Node event loop runs the
  callbacks one at a time, which the sequential fold reflects.
-/

namespace Wasla

/-! ## JavaScript string and number helpers -/

/-- JavaScript `x || d` for an optional number: `undefined` and `0` are
falsy and yield the default. -/
def jsOrI (o : Option Int) (d : Int) : Int :=
  match o with
  | none => d
  | some n => if n = 0 then d else n

/-- JavaScript `s || d` for an optional string: `undefined` and `""` are
falsy and yield the default. -/
def jsOrStr (o : Option String) (d : String) : String :=
  match o with
  | none => d
  | some s => if s = "" then d else s

/-- Template-literal rendering of a possibly-undefined string. -/
def jsStr (o : Option String) : String :=
  match o with
  | none => "undefined"
  | some s => s

/-- Template-literal rendering of a possibly-undefined number. -/
def jsNumStr (o : Option Int) : String :=
  match o with
  | none => "undefined"
  | some n => toString n

/-- Two-digit zero padding for the fractional part of `toFixed(2)`. -/
def pad2 (n : Nat) : String :=
  if n < 10 then "0" ++ toString n else toString n

/-- Three-digit zero padding for the fractional part of `toFixed(3)`. -/
def pad3 (n : Nat) : String :=
  if n < 10 then "00" ++ toString n
  else if n < 100 then "0" ++ toString n
  else toString n

/-- `x.toFixed(2)` for a non-negative amount of `a` millimes: half-up
rounding to hundredths, then decimal rendering with two fractional
digits. -/
def toFixed2 (a : Int) : String :=
  let h := ((a + 5).ediv 10).toNat
  toString (h / 100) ++ "." ++ pad2 (h % 100)

/-- `x.toFixed(3)` for a non-negative amount of `a` millimes: millimes
are exactly thousandths, rendered with three fractional digits. -/
def toFixed3 (a : Int) : String :=
  let m := a.toNat
  toString (m / 1000) ++ "." ++ pad3 (m % 1000)

/-- JavaScript `String.prototype.padStart(n)` with spaces. -/
def padStart (s : String) (n : Nat) : String :=
  String.mk (List.replicate (n - s.data.length) ' ') ++ s

/-- JavaScript `String.prototype.padEnd(n)` with spaces. -/
def padEnd (s : String) (n : Nat) : String :=
  s ++ String.mk (List.replicate (n - s.data.length) ' ')

/-- JavaScript `s.substring(0, n)` (ASCII data, where code units and
characters coincide). -/
def strTake (s : String) (n : Nat) : String :=
  String.mk (s.data.take n)

/-- JavaScript `String.prototype.trim` (whitespace at both ends). -/
def jsTrim (s : String) : String :=
  String.mk (((s.data.dropWhile Char.isWhitespace).reverse.dropWhile
    Char.isWhitespace).reverse)

/-! ## UTF-8 encoding (`Buffer.from(content, 'utf8')`) -/

/-- UTF-8 encoding of a single code point. -/
def utf8EncodeChar (c : Char) : List Nat :=
  let n := c.toNat
  if n < 0x80 then [n]
  else if n < 0x800 then
    [0xC0 ||| (n >>> 6), 0x80 ||| (n &&& 0x3F)]
  else if n < 0x10000 then
    [0xE0 ||| (n >>> 12), 0x80 ||| ((n >>> 6) &&& 0x3F), 0x80 ||| (n &&& 0x3F)]
  else
    [0xF0 ||| (n >>> 18), 0x80 ||| ((n >>> 12) &&& 0x3F),
     0x80 ||| ((n >>> 6) &&& 0x3F), 0x80 ||| (n &&& 0x3F)]

/-- UTF-8 bytes of a string, as `Buffer.from(s, 'utf8')` produces them. -/
def utf8Bytes (s : String) : List Nat :=
  s.data.flatMap utf8EncodeChar

/-- JavaScript `lines.join('\n')`. -/
def joinLines : List String → String
  | [] => ""
  | [l] => l
  | l :: ls => l ++ "\n" ++ joinLines ls

/-- The spec's reading of the encoder payload: the UTF-8 bytes of the
lines, joined by single line-feed bytes (`0x0A`). -/
def joinedBytes : List String → List Nat
  | [] => []
  | [l] => utf8Bytes l
  | l :: ls => utf8Bytes l ++ 0x0A :: joinedBytes ls

/-! ## Protocol Encoder (`convertToESCPOS`)

The current implementation (`embeddedPrinterService.ts` lines 473–497,
identical in the electron variant): initialize, character table, center
alignment, UTF-8 content, left alignment, four line feeds, cut. -/

def convertToESCPOS (content : String) : List Nat :=
  let data := [0x1B, 0x40]
  let data := data ++ [0x1B, 0x74, 0x02]
  let data := data ++ [0x1B, 0x61, 0x01]
  let contentBuffer := utf8Bytes content
  let data := data ++ contentBuffer
  let data := data ++ [0x1B, 0x61, 0x00]
  let data := data ++ [0x0A, 0x0A, 0x0A, 0x0A]
  let data := data ++ [0x1D, 0x56, 0x00]
  data

/-- The legacy variant's encoder (`src/unnamed/part_004` lines 472–486):
initialize, UTF-8 content, three line feeds, cut — no character-table and
no alignment commands. -/
def convertToESCPOSLegacy (content : String) : List Nat :=
  let data := [0x1B, 0x40]
  let data := data ++ utf8Bytes content
  let data := data ++ [0x0A, 0x0A, 0x0A]
  let data := data ++ [0x1D, 0x56, 0x00]
  data

/-- The byte layout claim C1 asserts of the encoder output. -/
def c1Layout (ls : List String) : List Nat :=
  [0x1B, 0x40] ++ [0x1B, 0x74, 0x02] ++ [0x1B, 0x61, 0x01] ++
    joinedBytes ls ++ [0x1B, 0x61, 0x00] ++
    [0x0A, 0x0A, 0x0A, 0x0A] ++ [0x1D, 0x56, 0x00]

/-! ## Ticket Formatter (`generateTicketContent`) -/

/-- A timestamp, represented by its fr-FR locale date and time
renderings (`toLocaleDateString('fr-FR')`,
`toLocaleTimeString('fr-FR', { hour, minute })`). -/
structure JsDate where
  dateStr : String
  timeStr : String
  deriving DecidableEq, Repr

/-- The `TicketData` request body, restricted to the fields the ticket
formatters read.  Amounts are in millimes. -/
structure TicketData where
  licensePlate : String
  destinationName : Option String
  seatNumber : Option Int
  totalAmount : Int
  stationFee : Option Int
  basePrice : Option Int
  createdBy : String
  createdAt : JsDate
  deriving DecidableEq, Repr

/-- The conditional `Route:` line of the day-pass branch
(`if (data.destinationName) lines.push('Route: ' + …)`). -/
def optRouteLines (o : Option String) : List String :=
  match o with
  | some s => if s = "" then [] else ["Route: " ++ s]
  | none => []

/-- The lines pushed by `generateTicketContent` of the current service
(`embeddedPrinterService.ts` lines 294–385), in push order; the function
itself returns them joined with `'\n'`. -/
def ticketLines (data : TicketData) (ty : String) : List String :=
  let dateStr := data.createdAt.dateStr
  let timeStr := data.createdAt.timeStr
  let header : List String :=
    ["================================",
     "  STE DHRAIFF SERVICES",
     "     TRANSPORT",
     "================================",
     ""]
  let body : List String :=
    if ty = "booking" then
      let seatCount := max 1 (jsOrI data.seatNumber 1)
      ["     BILLET RESERVATION",
       "================================"] ++
      (if data.licensePlate ≠ "" then
        ["Vehicule: " ++ data.licensePlate] else []) ++
      ["Destination: " ++ jsOrStr data.destinationName "N/A",
       "Sieges: " ++ toString seatCount,
       "--------------------------------"] ++
      (match data.basePrice with
       | some p => if p = 0 then [] else
           ["Prix base: " ++ toFixed2 (p * seatCount) ++ " TND"]
       | none => []) ++
      (match data.stationFee with
       | some f => if f = 0 then [] else
           ["Frais: " ++ toFixed2 (f * seatCount) ++ " TND"]
       | none => []) ++
      ["Total: " ++ toFixed2 data.totalAmount ++ " TND",
       "--------------------------------",
       "Date: " ++ dateStr,
       "Heure: " ++ timeStr] ++
      (if data.createdBy ≠ "" then ["Agent: " ++ data.createdBy] else [])
    else if ty = "daypass" then
      ["      PASS JOURNEE",
       "================================",
       "Vehicule: " ++ data.licensePlate] ++
      optRouteLines data.destinationName ++
      ["--------------------------------",
       "Montant: " ++ toFixed2 data.totalAmount ++ " TND",
       "--------------------------------",
       "Date: " ++ dateStr,
       "Heure: " ++ timeStr] ++
      (if data.createdBy ≠ "" then ["Agent: " ++ data.createdBy] else []) ++
      ["--------------------------------",
       "   Valide toute la journee"]
    else if ty = "exitpass" then
      ["  AUTORISATION DE SORTIE",
       "================================",
       "Vehicule: " ++ data.licensePlate,
       "Destination: " ++ jsOrStr data.destinationName "N/A",
       "--------------------------------"] ++
      (match data.seatNumber with
       | some n => if n ≠ 0 ∧ 0 < n then
           ["Sieges: " ++ toString n] ++
           (match data.basePrice with
            | some p => if p = 0 then [] else
                ["Prix: " ++ toFixed2 (p * n) ++ " TND"]
            | none => [])
         else []
       | none => []) ++
      ["Total: " ++ toFixed2 data.totalAmount ++ " TND",
       "--------------------------------",
       "Date: " ++ dateStr,
       "Heure: " ++ timeStr] ++
      (if data.createdBy ≠ "" then ["Agent: " ++ data.createdBy] else []) ++
      ["--------------------------------",
       "      Sortie autorisee"]
    else []
  let footer : List String :=
    ["",
     "================================",
     "    Merci et bon voyage!",
     "================================",
     "",
     "",
     ""]
  header ++ body ++ footer

/-- `generateTicketContent` of the current service: the pushed lines
joined with `'\n'`. -/
def generateTicketContent (data : TicketData) (ty : String) : String :=
  joinLines (ticketLines data ty)

/-- The lines pushed by `generateTicketContent` of the electron variant
(`main.ts` lines 559–649).  It differs from the current service in the
booking branch only: the seat count and the price multiplications use
`data.seatNumber` verbatim (no `Math.max(1, … || 1)` default) and the
destination has no `'N/A'` fallback. -/
def ticketLinesMain (data : TicketData) (ty : String) : List String :=
  let dateStr := data.createdAt.dateStr
  let timeStr := data.createdAt.timeStr
  let header : List String :=
    ["================================",
     "  STE DHRAIFF SERVICES",
     "     TRANSPORT",
     "================================",
     ""]
  let body : List String :=
    if ty = "booking" then
      ["     BILLET RESERVATION",
       "================================"] ++
      (if data.licensePlate ≠ "" then
        ["Vehicule: " ++ data.licensePlate] else []) ++
      ["Destination: " ++ jsStr data.destinationName,
       "Sieges: " ++ jsNumStr data.seatNumber,
       "--------------------------------"] ++
      (match data.basePrice with
       | some p => if p = 0 then [] else
           ["Prix base: " ++
             (match data.seatNumber with
              | some n => toFixed2 (p * n)
              | none => "NaN") ++ " TND"]
       | none => []) ++
      (match data.stationFee with
       | some f => if f = 0 then [] else
           ["Frais: " ++
             (match data.seatNumber with
              | some n => toFixed2 (f * n)
              | none => "NaN") ++ " TND"]
       | none => []) ++
      ["Total: " ++ toFixed2 data.totalAmount ++ " TND",
       "--------------------------------",
       "Date: " ++ dateStr,
       "Heure: " ++ timeStr] ++
      (if data.createdBy ≠ "" then ["Agent: " ++ data.createdBy] else [])
    else if ty = "daypass" then
      ["      PASS JOURNEE",
       "================================",
       "Vehicule: " ++ data.licensePlate] ++
      optRouteLines data.destinationName ++
      ["--------------------------------",
       "Montant: " ++ toFixed2 data.totalAmount ++ " TND",
       "--------------------------------",
       "Date: " ++ dateStr,
       "Heure: " ++ timeStr] ++
      (if data.createdBy ≠ "" then ["Agent: " ++ data.createdBy] else []) ++
      ["--------------------------------",
       "   Valide toute la journee"]
    else if ty = "exitpass" then
      ["  AUTORISATION DE SORTIE",
       "================================",
       "Vehicule: " ++ data.licensePlate,
       "Destination: " ++ jsStr data.destinationName,
       "--------------------------------"] ++
      (match data.seatNumber with
       | some n => if n ≠ 0 ∧ 0 < n then
           ["Sieges: " ++ toString n] ++
           (match data.basePrice with
            | some p => if p = 0 then [] else
                ["Prix: " ++ toFixed2 (p * n) ++ " TND"]
            | none => [])
         else []
       | none => []) ++
      ["Total: " ++ toFixed2 data.totalAmount ++ " TND",
       "--------------------------------",
       "Date: " ++ dateStr,
       "Heure: " ++ timeStr] ++
      (if data.createdBy ≠ "" then ["Agent: " ++ data.createdBy] else []) ++
      ["--------------------------------",
       "      Sortie autorisee"]
    else []
  let footer : List String :=
    ["",
     "================================",
     "    Merci et bon voyage!",
     "================================",
     "",
     "",
     ""]
  header ++ body ++ footer

/-! ## Report Formatter (`generateStatisticsContent`) -/

/-- One row of `data.staffData`; numeric fields may be absent
(`x || 0` in the code), amounts are in millimes. -/
structure StaffRow where
  name : Option String
  seats : Option Int
  seatIncome : Option Int
  dayPasses : Option Int
  dayPassIncome : Option Int
  income : Option Int
  deriving DecidableEq, Repr

/-- The statistics report request body, restricted to the fields the
report formatter reads.  An absent `staffData` array is folded into `[]`
(the code guards with `data.staffData && data.staffData.length > 0`). -/
structure StatsData where
  periodLabel : String
  totalSeatsBooked : Int
  totalSeatIncome : Int
  totalDayPassesSold : Int
  totalDayPassIncome : Int
  totalIncome : Int
  staffData : List StaffRow
  createdBy : String
  createdAt : Option JsDate
  deriving DecidableEq, Repr

/-- One staff table row, as formatted by the `forEach` body. -/
def staffRowLine (staff : StaffRow) : String :=
  let name := padEnd (strTake (jsOrStr staff.name "") 10) 10
  let seats := padStart (toString (staff.seats.getD 0)) 6
  let seatIncome := padStart (toFixed2 (staff.seatIncome.getD 0)) 10
  let passes := padStart (toString (staff.dayPasses.getD 0)) 6
  let passIncome := padStart (toFixed2 (staff.dayPassIncome.getD 0)) 10
  let total := padStart (toFixed2 (staff.income.getD 0)) 10
  name ++ " | " ++ seats ++ " | " ++ seatIncome ++ " | " ++ passes ++
    " | " ++ passIncome ++ " | " ++ total

/-- The lines pushed by `generateStatisticsContent`
(`embeddedPrinterService.ts` lines 406–468).  `now` is the wall-clock
timestamp at which formatting runs: the code evaluates
`new Date(data.createdAt || new Date())`, so an absent `createdAt`
falls back to the current time. -/
def statsLines (data : StatsData) (now : JsDate) : List String :=
  let ts := data.createdAt.getD now
  let dateStr := ts.dateStr
  let timeStr := ts.timeStr
  ["================================",
   "  STE DHRAIFF SERVICES",
   "     TRANSPORT",
   "================================",
   "",
   "   RAPPORT DE REVENUS",
   "--------------------------------",
   "Periode: " ++ data.periodLabel,
   "Date: " ++ dateStr ++ " " ++ timeStr] ++
  (if data.createdBy ≠ "" then ["Agent: " ++ data.createdBy] else []) ++
  ["--------------------------------",
   "",
   "RESUME DES REVENUS",
   "--------------------------------",
   "Total Sieges: " ++ toString data.totalSeatsBooked,
   "Revenus Sieges: " ++ toFixed3 data.totalSeatIncome ++ " TND",
   "Passes Jour: " ++ toString data.totalDayPassesSold,
   "Revenus Passes: " ++ toFixed3 data.totalDayPassIncome ++ " TND",
   "--------------------------------",
   "REVENUS TOTAUX: " ++ toFixed3 data.totalIncome ++ " TND",
   "--------------------------------",
   ""] ++
  (if data.staffData ≠ [] then
    ["PERFORMANCE DU PERSONNEL",
     "--------------------------------",
     "Personnel | Sieges | Rev.Sieges | Passes | Rev.Passes | Total",
     "--------------------------------"] ++
    data.staffData.map staffRowLine ++
    ["--------------------------------",
     "TOTAL     | " ++ padStart (toString data.totalSeatsBooked) 6 ++
       " | " ++ padStart (toFixed2 data.totalSeatIncome) 10 ++
       " | " ++ padStart (toString data.totalDayPassesSold) 6 ++
       " | " ++ padStart (toFixed2 data.totalDayPassIncome) 10 ++
       " | " ++ padStart (toFixed2 data.totalIncome) 10,
     "--------------------------------",
     ""]
   else []) ++
  ["Document genere automatiquement",
   "par le systeme de gestion",
   ""]

/-- `generateStatisticsContent`: the pushed lines joined with `'\n'`. -/
def generateStatisticsContent (data : StatsData) (now : JsDate) : String :=
  joinLines (statsLines data now)

/-- Format-then-encode pipeline for a ticket print performed at
wall-clock time `now`: `generateTicketContent` never reads the clock,
which the unused parameter reflects. -/
def printTicketAt (_now : JsDate) (data : TicketData) (ty : String) :
    List Nat :=
  convertToESCPOS (generateTicketContent data ty)

/-- Format-then-encode pipeline for a statistics print performed at
wall-clock time `now`. -/
def printStatisticsAt (now : JsDate) (data : StatsData) : List Nat :=
  convertToESCPOS (generateStatisticsContent data now)

/-! ## Configuration Store (`printerIpConfigService`) -/

/-- The stored printer endpoint. -/
structure PrinterIpConfig where
  ip : String
  port : Int
  deriving DecidableEq, Repr

/-- `DEFAULT_CONFIG` of `printerIpConfigService` (`printerService.ts`
lines 206–209). -/
def DEFAULT_CONFIG : PrinterIpConfig :=
  { ip := "192.168.192.12", port := 9100 }

/-- The `localStorage` slot under the service's storage key: `none` when
nothing is stored, `some c` when a parseable configuration is stored. -/
abbrev ConfigStore := Option PrinterIpConfig

/-- `saveConfig` (`printerService.ts` lines 232–238): writes the given
configuration to storage unconditionally — no validation happens here. -/
def saveConfig (_store : ConfigStore) (config : PrinterIpConfig) :
    ConfigStore :=
  some config

/-- `getConfig` (`printerService.ts` lines 212–229): returns the stored
value, migrating the known-stale default host `192.168.192.168` to
`DEFAULT_CONFIG` (and persisting the rewrite); returns `DEFAULT_CONFIG`
when nothing is stored.  The returned pair is (result, storage after the
call). -/
def getConfig (store : ConfigStore) : PrinterIpConfig × ConfigStore :=
  match store with
  | some config =>
      if config.ip = "192.168.192.168" then
        (DEFAULT_CONFIG, saveConfig (some config) DEFAULT_CONFIG)
      else
        (config, some config)
  | none => (DEFAULT_CONFIG, none)

/-- `setPrinterIp` (`printerService.ts` lines 253–257): read-modify-write
of the ip field, again without validation. -/
def setPrinterIp (store : ConfigStore) (ip : String) : ConfigStore :=
  let r := getConfig store
  saveConfig r.2 { r.1 with ip := ip }

/-- One dot-separated component of the `isValidIp` regular expression:
`25[0-5] | 2[0-4][0-9] | [01]?[0-9][0-9]?`.  A one- or two-character
component matches exactly when all characters are digits; a
three-character component matches the three alternatives spelled out. -/
def isOctet (cs : List Char) : Bool :=
  match cs with
  | [a] => a.isDigit
  | [a, b] => a.isDigit && b.isDigit
  | [a, b, c] =>
      (a = '2' && b = '5' && ('0' ≤ c && c ≤ '5')) ||
      (a = '2' && ('0' ≤ b && b ≤ '4') && c.isDigit) ||
      ((a = '0' || a = '1') && b.isDigit && c.isDigit)
  | _ => false

/-- Splitting a character list at every `'.'` (keeping empty pieces),
mirroring how the anchored regex consumes the string: the regex matches
exactly when the split yields four pieces, each an octet. -/
def splitDots : List Char → List (List Char)
  | [] => [[]]
  | c :: rest =>
      if c = '.' then [] :: splitDots rest
      else
        match splitDots rest with
        | [] => [[c]]
        | p :: ps => (c :: p) :: ps

/-- `isValidIp` (`printerService.ts` lines 318–321): the anchored IPv4
regular expression.  Note it accepts only dotted-quad IPv4 literals —
hostnames such as `localhost` do not match. -/
def isValidIp (ip : String) : Bool :=
  let parts := splitDots ip.data
  parts.length = 4 && parts.all isOctet

/-- `isValidPort` (`printerService.ts` lines 324–326).  No code path in
the repository calls it. -/
def isValidPort (port : Int) : Bool :=
  port > 0 && port ≤ 65535

/-- Outcome of the settings panel's save flow. -/
inductive SaveResult where
  | saved
  | emptyIpError
  | invalidFormatError
  deriving DecidableEq, Repr

/-- `handleSaveIp` of the printer-settings component
(`src/unnamed/part_003` lines 364–380): the only code path that writes a
host into the store.  It rejects an empty or regex-invalid ip without
touching the store; otherwise it calls `setPrinterIp`.  The returned
pair is (outcome, storage after the call). -/
def handleSaveIp (store : ConfigStore) (newIp : String) :
    SaveResult × ConfigStore :=
  let t := jsTrim newIp
  if t = "" then (SaveResult.emptyIpError, store)
  else if ¬ isValidIp t then (SaveResult.invalidFormatError, store)
  else (SaveResult.saved, setPrinterIp store t)

/-! ## Control Facade configuration routes (`handleRoutes`) -/

/-- The `PrinterConfig` record the embedded facade serves. -/
structure PrinterConfig where
  id : String
  name : String
  ip : String
  port : Int
  width : Int
  timeout : Int
  model : String
  enabled : Bool
  isDefault : Bool
  deriving DecidableEq, Repr

/-- `getDefaultConfig` (`embeddedPrinterService.ts` lines 232–244). -/
def getDefaultConfig : PrinterConfig :=
  { id := "printer1", name := "Local Printer", ip := "localhost",
    port := 9100, width := 48, timeout := 5000, model := "ESC/POS",
    enabled := true, isDefault := true }

/-- The mutable state of the `EmbeddedPrinterService` instance.  Its
only mutable fields are the HTTP server handle, the listen port and the
running flag; no field stores a printer configuration. -/
structure ServiceState where
  port : Int
  isRunning : Bool
  deriving DecidableEq, Repr

/-- The configuration requests of the facade. -/
inductive ConfigReq where
  | getCfg (id : String)
  | putCfg (id : String) (body : PrinterConfig)
  deriving DecidableEq, Repr

/-- The facade's responses on the configuration routes. -/
inductive ConfigResp where
  | cfg (c : PrinterConfig)
  | okMsg (msg : String)
  deriving DecidableEq, Repr

/-- The configuration branches of `handleRoutes`
(`embeddedPrinterService.ts` lines 149–161): GET answers
`getDefaultConfig()` and PUT answers a success message without reading
its body or touching any state. -/
def handleConfigRoute (st : ServiceState) (req : ConfigReq) :
    ServiceState × ConfigResp :=
  match req with
  | ConfigReq.getCfg _ => (st, ConfigResp.cfg getDefaultConfig)
  | ConfigReq.putCfg _ _ =>
      (st, ConfigResp.okMsg "printer configuration updated successfully")

/-- State after a sequence of PUT `/api/printer/config/{id}` requests. -/
def runPuts (st : ServiceState) (puts : List (String × PrinterConfig)) :
    ServiceState :=
  puts.foldl (fun s pb => (handleConfigRoute s (ConfigReq.putCfg pb.1 pb.2)).1) st

/-! ## Delivery Channel (`sendToPrinter`) as an event machine

The promise executor of `sendToPrinter` (`embeddedPrinterService.ts`
lines 502–571, structurally identical in the electron variant) installs
callbacks on one socket; Node runs them sequentially.  The machine below
consumes the sequence of callback invocations: `connect` (which issues
the single `socket.write` of the whole buffer), the write callback (with
an error, or success — success sets `dataWritten` and schedules the
delayed resolve), the delayed-resolve timer, `timeout`, `error` and
`close`. -/

/-- Outcome of one `sendToPrinter` call. -/
inductive SendResult where
  | ok
  | err (msg : String)
  deriving DecidableEq, Repr

/-- Socket-lifecycle events as seen by the `sendToPrinter` callbacks. -/
inductive SockEv where
  | connect
  | writeCb (e : Option String)
  | delayFired
  | timeout
  | errorEv (msg : String)
  | closeEv
  deriving DecidableEq, Repr

/-- The local state of one `sendToPrinter` promise executor. -/
structure SendState where
  isResolved : Bool
  dataWritten : Bool
  delayScheduled : Bool
  result : Option SendResult
  deriving DecidableEq, Repr

/-- State at entry of the promise executor. -/
def sendInit : SendState :=
  { isResolved := false, dataWritten := false, delayScheduled := false,
    result := none }

/-- One callback invocation of `sendToPrinter`, by the code of the
handlers.  Note two faithful subtleties: the write callback's else
branch (`dataWritten = true` plus scheduling the delayed resolve) runs
whenever `err && !isResolved` is false — also for an errored write that
arrives after resolution — and the `error` handler rejects regardless of
`dataWritten`. -/
def sendStep (ip : String) (port : Int) (s : SendState) (e : SockEv) :
    SendState :=
  match e with
  | SockEv.connect => s
  | SockEv.writeCb errOpt =>
      if errOpt.isSome && !s.isResolved then
        { s with isResolved := true,
                 result := some (SendResult.err (errOpt.getD "")) }
      else
        { s with dataWritten := true, delayScheduled := true }
  | SockEv.delayFired =>
      if s.delayScheduled && !s.isResolved then
        { s with isResolved := true, result := some SendResult.ok }
      else s
  | SockEv.timeout =>
      if !s.isResolved then
        if s.dataWritten then
          { s with isResolved := true, result := some SendResult.ok }
        else
          { s with isResolved := true,
                   result := some (SendResult.err
                     ("Printer connection timeout at " ++ ip ++ ":" ++
                       toString port)) }
      else s
  | SockEv.errorEv msg =>
      if !s.isResolved then
        { s with isResolved := true,
                 result := some (SendResult.err
                   ("Cannot connect to printer at " ++ ip ++ ":" ++
                     toString port ++ " - " ++ msg)) }
      else s
  | SockEv.closeEv =>
      if !s.isResolved then
        if s.dataWritten then
          { s with isResolved := true, result := some SendResult.ok }
        else
          { s with isResolved := true,
                   result := some (SendResult.err
                     "Connection closed before data could be sent") }
      else s

/-- Running one `sendToPrinter` call over a sequence of callback
invocations. -/
def sendRun (ip : String) (port : Int) (evs : List SockEv) : SendState :=
  evs.foldl (sendStep ip port) sendInit

/-- The legacy variant's `sendToPrinter` (`src/unnamed/part_004` lines
494–531): `connect` issues `socket.write(data)` with no callback and no
`dataWritten` flag; `timeout` always rejects; `close` always resolves. -/
structure LegacySendState where
  isResolved : Bool
  wroteIssued : Bool
  result : Option SendResult
  deriving DecidableEq, Repr

def legacySendInit : LegacySendState :=
  { isResolved := false, wroteIssued := false, result := none }

/-- Events of the legacy variant (it installs no write callback and no
delayed resolve). -/
inductive LegacyEv where
  | connect
  | timeout
  | errorEv (msg : String)
  | closeEv
  deriving DecidableEq, Repr

def legacySendStep (s : LegacySendState) (e : LegacyEv) : LegacySendState :=
  match e with
  | LegacyEv.connect => { s with wroteIssued := true }
  | LegacyEv.timeout =>
      if !s.isResolved then
        { s with isResolved := true,
                 result := some (SendResult.err "Printer connection timeout") }
      else s
  | LegacyEv.errorEv msg =>
      if !s.isResolved then
        { s with isResolved := true,
                 result := some (SendResult.err msg) }
      else s
  | LegacyEv.closeEv =>
      if !s.isResolved then
        { s with isResolved := true, result := some SendResult.ok }
      else s

def legacySendRun (evs : List LegacyEv) : LegacySendState :=
  evs.foldl legacySendStep legacySendInit

/-! ## Print dispatch as a trace model

`handleRoutes` starts the pipeline of each print request independently
(`await this.printTicket(…)` inside the per-request handler), and
`sendToPrinter` uses only its arguments and promise-local variables.
The repository contains no per-endpoint queue, lock table or other
shared mutable state between deliveries, so the only event-ordering
constraints the code imposes are within one request: a delivery starts
before it finishes.  A schedule of `n` concurrent print requests is
therefore admissible exactly when it is an interleaving of the `n`
start/finish pairs. -/

/-- A print job: the endpoint its buffer is addressed to. -/
structure PrintJob where
  host : String
  port : Int
  deriving DecidableEq, Repr

/-- Delivery lifecycle events of job `i`. -/
inductive JobEv where
  | jobStart (i : Nat)
  | jobEnd (i : Nat)
  deriving DecidableEq, Repr

/-- A schedule of `n` concurrent deliveries is admissible when every
job's start and finish occur exactly once and the start occurs first —
the only constraints the code imposes. -/
def admissible (n : Nat) (tr : List JobEv) : Bool :=
  (List.range n).all (fun i =>
    tr.count (JobEv.jobStart i) = 1 &&
    tr.count (JobEv.jobEnd i) = 1 &&
    tr.indexOf (JobEv.jobStart i) < tr.indexOf (JobEv.jobEnd i)) &&
  tr.length = 2 * n

/-- The per-endpoint mutual exclusion claim C3 asserts: two distinct
jobs to the same endpoint never overlap — one ends before the other
starts. -/
def serializedPerEndpoint (jobs : List PrintJob) (tr : List JobEv) : Bool :=
  (List.range jobs.length).all (fun i =>
    (List.range jobs.length).all (fun j =>
      i = j ||
      decide (jobs.getD i ⟨"", 0⟩ ≠ jobs.getD j ⟨"", 0⟩) ||
      tr.indexOf (JobEv.jobEnd i) < tr.indexOf (JobEv.jobStart j) ||
      tr.indexOf (JobEv.jobEnd j) < tr.indexOf (JobEv.jobStart i)))

/-- The overlapping schedule: the second delivery starts while the
first is still in flight. -/
def overlapTrace : List JobEv :=
  [JobEv.jobStart 0, JobEv.jobStart 1, JobEv.jobEnd 0, JobEv.jobEnd 1]

/-! ## Concrete request values used by witnesses and counterexamples -/

/-- First character of a string, used to separate line shapes. -/
def headCh (s : String) : Option Char := s.data.head?

/-- The booking request of claim C2: seats = 3, basePrice = 5.000 TND,
stationFee = 0.150 TND, totalAmount = 15.450 TND (all in millimes). -/
def c2Data : TicketData :=
  { licensePlate := "123 TU 456", destinationName := some "Tunis",
    seatNumber := some 3, totalAmount := 15450, stationFee := some 150,
    basePrice := some 5000, createdBy := "Ali",
    createdAt := { dateStr := "01/10/2025", timeStr := "10:30" } }

/-- A booking request with seat count 0. -/
def c8Data : TicketData :=
  { licensePlate := "200 TU 1000", destinationName := some "Sfax",
    seatNumber := some 0, totalAmount := 2000, stationFee := none,
    basePrice := none, createdBy := "Mehdi",
    createdAt := { dateStr := "02/10/2025", timeStr := "08:00" } }

/-- A statistics request without a creation timestamp. -/
def statsNoTs : StatsData :=
  { periodLabel := "Semaine 1", totalSeatsBooked := 0,
    totalSeatIncome := 0, totalDayPassesSold := 0,
    totalDayPassIncome := 0, totalIncome := 0, staffData := [],
    createdBy := "", createdAt := none }

/-- A statistics request carrying a creation timestamp. -/
def statsWithTs : StatsData :=
  { periodLabel := "Semaine 2", totalSeatsBooked := 12,
    totalSeatIncome := 60000, totalDayPassesSold := 3,
    totalDayPassIncome := 6000, totalIncome := 66000, staffData := [],
    createdBy := "Sara",
    createdAt := some { dateStr := "03/10/2025", timeStr := "18:00" } }

/-- Two distinct wall-clock instants. -/
def nowA : JsDate := { dateStr := "04/10/2025", timeStr := "09:00" }

def nowB : JsDate := { dateStr := "05/10/2025", timeStr := "21:15" }

/-! # Theorems -/

/-! ## UTF-8 and encoder lemmas -/

theorem utf8Bytes_append (a b : String) :
    utf8Bytes (a ++ b) = utf8Bytes a ++ utf8Bytes b := by
  simp [utf8Bytes, String.data_append]

theorem utf8Bytes_joinLines (ls : List String) :
    utf8Bytes (joinLines ls) = joinedBytes ls := by
  induction ls with
  | nil => rfl
  | cons l ls ih =>
    cases ls with
    | nil => rfl
    | cons m ms =>
      simp only [joinLines, joinedBytes, utf8Bytes_append, ← ih]
      have h : utf8Bytes "\n" = [10] := rfl
      simp [h]

/-! ## C1 — encoder byte layout -/

/-- C1 (amended): for the current Protocol Encoder
(`embeddedPrinterService.ts`, identically the electron variant), the
output for any line sequence is exactly initialize, character table
selection, center alignment, the UTF-8 bytes of the lines joined by
single line feeds, left realignment, four trailing line feeds and the
paper cut, in this order; in particular it begins with `{0x1B,0x40}` and
ends with `{0x1D,0x56,0x00}`.  (The legacy duplicate's encoder omits the
character-table and alignment commands, see the counterexample.) -/
theorem c1_encoder_layout (ls : List String) :
    convertToESCPOS (joinLines ls) = c1Layout ls ∧
    (convertToESCPOS (joinLines ls)).take 2 = [0x1B, 0x40] ∧
    ∃ t, convertToESCPOS (joinLines ls) = t ++ [0x1D, 0x56, 0x00] := by
  have he : convertToESCPOS (joinLines ls) = c1Layout ls := by
    unfold convertToESCPOS c1Layout
    rw [utf8Bytes_joinLines]
  refine ⟨he, by rw [he]; rfl, ?_⟩
  refine ⟨[0x1B, 0x40] ++ [0x1B, 0x74, 0x02] ++ [0x1B, 0x61, 0x01] ++
    joinedBytes ls ++ [0x1B, 0x61, 0x00] ++ [0x0A, 0x0A, 0x0A, 0x0A], ?_⟩
  rw [he]
  simp only [c1Layout, List.append_assoc]

/-- C1 counterexample: the legacy encoder variant, on the line sequence
`["TEST"]`, does not produce the claimed seven-part byte layout (it
omits the character-table and alignment commands and emits three
trailing line feeds). -/
theorem c1_counterexample :
    convertToESCPOSLegacy (joinLines ["TEST"]) ≠ c1Layout ["TEST"] := by
  decide

/-! ## C2 — booking line items and total rendering -/

/-- C2 (amended): for every booking request with a positive seat count
`n`, a nonzero base price `bp` and a nonzero station fee `f`, the
formatted booking ticket contains the line items
`Prix base: <bp·n to two decimals> TND` and
`Frais: <f·n to two decimals> TND`, and renders the final payable total
with exactly **two** decimal places (`Total: <amount to two decimals>
TND`) — not three as the claim stated. -/
theorem c2_line_items (data : TicketData) (n bp f : Int)
    (hseat : data.seatNumber = some n) (hn : 0 < n)
    (hbp : data.basePrice = some bp) (hbp0 : bp ≠ 0)
    (hf : data.stationFee = some f) (hf0 : f ≠ 0) :
    ("Prix base: " ++ toFixed2 (bp * n) ++ " TND") ∈
      ticketLines data "booking" ∧
    ("Frais: " ++ toFixed2 (f * n) ++ " TND") ∈
      ticketLines data "booking" ∧
    ("Total: " ++ toFixed2 data.totalAmount ++ " TND") ∈
      ticketLines data "booking" := by
  have hsc : max 1 (jsOrI (some n) 1) = n := by
    simp only [jsOrI]
    rw [if_neg (by omega)]
    omega
  refine ⟨?_, ?_, ?_⟩ <;>
    simp [ticketLines, hsc, hseat, hbp, hf, hbp0, hf0]

/-- C2 counterexample: at seats = 3, basePrice = 5.0, stationFee = 0.15,
totalAmount = 15.45, the booking ticket of the current service does
contain `Prix base: 15.00 TND` and `Frais: 0.45 TND`, but renders the
total as `Total: 15.45 TND` — the three-decimal rendering
`Total: 15.450 TND` the claim requires appears nowhere in the output. -/
theorem c2_counterexample :
    ("Prix base: 15.00 TND") ∈ ticketLines c2Data "booking" ∧
    ("Frais: 0.45 TND") ∈ ticketLines c2Data "booking" ∧
    ("Total: 15.45 TND") ∈ ticketLines c2Data "booking" ∧
    ("Total: " ++ toFixed3 c2Data.totalAmount ++ " TND") ∉
      ticketLines c2Data "booking" := by
  decide

/-- C2 witness: the amended theorem applied at the claim's concrete
request. -/
theorem c2_line_items_witness :
    ("Prix base: 15.00 TND") ∈ ticketLines c2Data "booking" ∧
    ("Frais: 0.45 TND") ∈ ticketLines c2Data "booking" ∧
    ("Total: 15.45 TND") ∈ ticketLines c2Data "booking" := by
  have h := c2_line_items c2Data 3 5000 150 rfl (by decide) rfl
    (by decide) rfl (by decide)
  exact h

/-! ## C8 — seat count rendering -/

theorem headCh_append (a b : String) (c : Char) (h : headCh a = some c) :
    headCh (a ++ b) = some c := by
  unfold headCh at h ⊢
  rw [String.data_append]
  cases ha : a.data with
  | nil => rw [ha] at h; simp at h
  | cons x xs =>
      rw [ha] at h
      simp only [List.head?_cons, Option.some.injEq] at h
      simp [h]

theorem mem_optRouteLines (l : String) (o : Option String)
    (h : l ∈ optRouteLines o) : ∃ s, l = "Route: " ++ s := by
  cases o with
  | none => simp [optRouteLines] at h
  | some s =>
      by_cases hs : s = "" <;> simp [optRouteLines, hs] at h
      exact ⟨s, h⟩

theorem daypass_headCh (data : TicketData) :
    ∀ l ∈ ticketLines data "daypass", headCh l ≠ some 'S' := by
  intro l hl
  simp [ticketLines] at hl
  rcases hl with rfl|rfl|rfl|rfl|rfl|rfl|rfl|rfl|hroute|rfl|rfl|rfl|rfl|
    rfl|⟨-,rfl⟩|rfl|rfl|rfl|rfl|rfl|rfl|rfl
  · decide
  · decide
  · decide
  · decide
  · decide
  · decide
  · decide
  · intro hS
    have h2 : (some 'V' : Option Char) = some 'S' := hS
    exact absurd h2 (by decide)
  · obtain ⟨s, rfl⟩ := mem_optRouteLines _ _ hroute
    intro hS
    have h2 : (some 'R' : Option Char) = some 'S' := hS
    exact absurd h2 (by decide)
  · decide
  · intro hS
    have h2 : (some 'M' : Option Char) = some 'S' := hS
    exact absurd h2 (by decide)
  · decide
  · intro hS
    have h2 : (some 'D' : Option Char) = some 'S' := hS
    exact absurd h2 (by decide)
  · intro hS
    have h2 : (some 'H' : Option Char) = some 'S' := hS
    exact absurd h2 (by decide)
  · intro hS
    have h2 : (some 'A' : Option Char) = some 'S' := hS
    exact absurd h2 (by decide)
  · decide
  · decide
  · decide
  · decide
  · decide
  · decide
  · decide

/-- C8 (amended): in the current embedded service
(`embeddedPrinterService.ts`), the printed booking seat count equals the
request's seat count when it is a positive integer and equals 1 when it
is absent or non-positive, and a day-pass ticket prints no seat-count
line and ignores the seat-count field entirely.  (The electron
main-process variant prints the request's seat number verbatim, see the
counterexample.) -/
theorem c8_seat_count (data : TicketData) :
    (∀ n : Int, data.seatNumber = some n → 0 < n →
      ("Sieges: " ++ toString n) ∈ ticketLines data "booking") ∧
    ((data.seatNumber = none ∨ ∃ n, data.seatNumber = some n ∧ n ≤ 0) →
      ("Sieges: " ++ toString (1 : Int)) ∈ ticketLines data "booking") ∧
    (∀ m : Int, ("Sieges: " ++ toString m) ∉ ticketLines data "daypass") ∧
    (∀ o : Option Int,
      ticketLines { data with seatNumber := o } "daypass" =
        ticketLines data "daypass") := by
  refine ⟨?_, ?_, ?_, ?_⟩
  · intro n hseat hn
    have hsc : max 1 (jsOrI (some n) 1) = n := by
      simp only [jsOrI]
      rw [if_neg (by omega)]
      omega
    simp [ticketLines, hseat, hsc]
  · intro hcase
    have hsc : max 1 (jsOrI data.seatNumber 1) = 1 := by
      rcases hcase with h | ⟨n, h, hn⟩
      · rw [h]; simp [jsOrI]
      · rw [h]; simp [jsOrI]; omega
    simp [ticketLines, hsc]
  · intro m hm
    exact daypass_headCh data _ hm rfl
  · intro o
    simp [ticketLines]

/-- C8 counterexample: the electron variant, on a booking request whose
seat count is 0, prints `Sieges: 0` and not the claimed default
`Sieges: 1`. -/
theorem c8_counterexample :
    ("Sieges: 0") ∈ ticketLinesMain c8Data "booking" ∧
    ("Sieges: 1") ∉ ticketLinesMain c8Data "booking" := by
  decide

/-- C8 witness: the amended theorem applied at concrete requests. -/
theorem c8_seat_count_witness :
    ("Sieges: " ++ toString (3 : Int)) ∈ ticketLines c2Data "booking" ∧
    ("Sieges: " ++ toString (1 : Int)) ∈ ticketLines c8Data "booking" ∧
    ("Sieges: " ++ toString (0 : Int)) ∉ ticketLines c8Data "daypass" := by
  refine ⟨(c8_seat_count c2Data).1 3 rfl (by decide), ?_, ?_⟩
  · exact (c8_seat_count c8Data).2.1 (Or.inr ⟨0, rfl, by decide⟩)
  · exact (c8_seat_count c8Data).2.2.1 0

/-! ## C7 — determinism of format-then-encode -/

/-- C7 (amended): every ticket print is independent of the wall-clock
time at which formatting runs, and so is every statistics print whose
request carries a creation timestamp; a statistics request without a
timestamp formats the current time (see the counterexample), so its
output is not time-independent. -/
theorem c7_time_independence :
    (∀ now1 now2 data ty,
      printTicketAt now1 data ty = printTicketAt now2 data ty) ∧
    (∀ now1 now2 (data : StatsData) ts, data.createdAt = some ts →
      printStatisticsAt now1 data = printStatisticsAt now2 data) := by
  constructor
  · intro _ _ _ _
    rfl
  · intro n1 n2 d ts h
    unfold printStatisticsAt generateStatisticsContent statsLines
    rw [h]
    rfl

set_option maxRecDepth 4000 in
/-- C7 counterexample: a statistics request without a creation
timestamp, formatted-then-encoded at two different wall-clock instants,
yields different byte buffers — the output does not depend on the
request fields alone. -/
theorem c7_counterexample :
    printStatisticsAt nowA statsNoTs ≠ printStatisticsAt nowB statsNoTs := by
  decide

/-- C7 witness: the amended theorem applied at concrete requests and
instants. -/
theorem c7_time_independence_witness :
    printStatisticsAt nowA statsWithTs = printStatisticsAt nowB statsWithTs ∧
    printTicketAt nowA c2Data "booking" = printTicketAt nowB c2Data "booking" :=
  ⟨c7_time_independence.2 nowA nowB statsWithTs
     { dateStr := "03/10/2025", timeStr := "18:00" } rfl,
   c7_time_independence.1 nowA nowB c2Data "booking"⟩

/-! ## C5 — endpoint validation -/

/-- C5 (amended): the Configuration Store's own save operation performs
no validation (see the counterexample), but the only code path that
writes a host — the settings panel's save flow `handleSaveIp` — rejects
a host failing the IPv4-only regular expression (such as
`999.999.999.999`) without touching the stored endpoint.  The regex also
rejects hostnames, and no code path validates the port. -/
theorem c5_ui_validation (store : ConfigStore) (newIp : String)
    (h : isValidIp (jsTrim newIp) = false) :
    (handleSaveIp store newIp).1 ≠ SaveResult.saved ∧
    (handleSaveIp store newIp).2 = store := by
  unfold handleSaveIp
  by_cases he : jsTrim newIp = ""
  · simp [he]
  · simp [he, h]

/-- C5 counterexample: `saveConfig` called on a previously stored
default endpoint with host `999.999.999.999` does not fail — it replaces
the stored endpoint with the invalid one.  Also `isValidIp` rejects the
hostname `localhost`, although the claim says hostnames are accepted,
and no caller of the store validates the port. -/
theorem c5_counterexample :
    saveConfig (some DEFAULT_CONFIG)
      { ip := "999.999.999.999", port := 9100 } =
      some { ip := "999.999.999.999", port := 9100 } ∧
    some { ip := "999.999.999.999", port := 9100 } ≠
      (some DEFAULT_CONFIG : ConfigStore) ∧
    isValidIp "localhost" = false := by
  decide

/-- C5 witness: the amended theorem applied to the claim's concrete
invalid host. -/
theorem c5_ui_validation_witness :
    (handleSaveIp (some DEFAULT_CONFIG) "999.999.999.999").1 ≠
      SaveResult.saved ∧
    (handleSaveIp (some DEFAULT_CONFIG) "999.999.999.999").2 =
      some DEFAULT_CONFIG :=
  c5_ui_validation (some DEFAULT_CONFIG) "999.999.999.999" (by decide)

/-! ## C6 — stale-default migration -/

/-- C6 (confirmed): a stored configuration whose host equals the stale
default `192.168.192.168` is rewritten to the current default
(`192.168.192.12`, port 9100) by the next `getConfig`, which returns the
updated value; any other stored configuration is returned unchanged
without a store write; with nothing stored the current default is
returned. -/
theorem c6_migration :
    (∀ c : PrinterIpConfig, c.ip = "192.168.192.168" →
      getConfig (some c) = (DEFAULT_CONFIG, some DEFAULT_CONFIG)) ∧
    (∀ c : PrinterIpConfig, c.ip ≠ "192.168.192.168" →
      getConfig (some c) = (c, some c)) ∧
    getConfig none = (DEFAULT_CONFIG, none) ∧
    DEFAULT_CONFIG = { ip := "192.168.192.12", port := 9100 } := by
  refine ⟨?_, ?_, rfl, rfl⟩ <;> intro c hc <;> simp [getConfig, saveConfig, hc]

/-- C6 witness: the migration theorem applied at a stale-host store and
at an ordinary store. -/
theorem c6_migration_witness :
    getConfig (some { ip := "192.168.192.168", port := 9100 }) =
      (DEFAULT_CONFIG, some DEFAULT_CONFIG) ∧
    getConfig (some { ip := "10.0.0.5", port := 631 }) =
      ({ ip := "10.0.0.5", port := 631 }, some { ip := "10.0.0.5", port := 631 }) :=
  ⟨c6_migration.1 { ip := "192.168.192.168", port := 9100 } rfl,
   c6_migration.2.1 { ip := "10.0.0.5", port := 631 } (by decide)⟩

/-! ## C9 — the facade's PUT config is a no-op -/

theorem runPuts_eq (st : ServiceState) (puts : List (String × PrinterConfig)) :
    runPuts st puts = st := by
  induction puts generalizing st with
  | nil => rfl
  | cons p ps ih => simp [runPuts, handleConfigRoute, ih st]

/-- C9 (confirmed): after any sequence of PUT
`/api/printer/config/{id}` requests with arbitrary bodies, the service
state is unchanged and a GET `/api/printer/config/{id}` answers the
fixed default configuration (ip `localhost`, port 9100, width 48,
timeout 5000): the PUT handler stores nothing. -/
theorem c9_put_config_noop (st : ServiceState)
    (puts : List (String × PrinterConfig)) (id : String) :
    runPuts st puts = st ∧
    (handleConfigRoute (runPuts st puts) (ConfigReq.getCfg id)).2 =
      ConfigResp.cfg getDefaultConfig ∧
    getDefaultConfig.ip = "localhost" ∧ getDefaultConfig.port = 9100 ∧
    getDefaultConfig.width = 48 ∧ getDefaultConfig.timeout = 5000 :=
  ⟨runPuts_eq st puts, rfl, rfl, rfl, rfl, rfl⟩

/-! ## Delivery-channel machine lemmas -/

theorem sendStep_iff (ip : String) (port : Int) (s : SendState) (e : SockEv)
    (h : s.isResolved = true ↔ s.result.isSome = true) :
    ((sendStep ip port s e).isResolved = true ↔
      (sendStep ip port s e).result.isSome = true) := by
  cases e <;> simp only [sendStep] <;> (try split_ifs) <;> simp_all

theorem sendStep_stable (ip : String) (port : Int) (s : SendState)
    (e : SockEv) (r : SendResult) (hr : s.result = some r)
    (hres : s.isResolved = true) :
    (sendStep ip port s e).result = some r ∧
    (sendStep ip port s e).isResolved = true := by
  cases e <;> simp [sendStep, hres, hr]

theorem sendFoldl_iff (ip : String) (port : Int) (evs : List SockEv)
    (s : SendState) (h : s.isResolved = true ↔ s.result.isSome = true) :
    ((evs.foldl (sendStep ip port) s).isResolved = true ↔
      (evs.foldl (sendStep ip port) s).result.isSome = true) := by
  induction evs generalizing s with
  | nil => exact h
  | cons e es ih => exact ih _ (sendStep_iff ip port s e h)

theorem sendFoldl_stable (ip : String) (port : Int) (more : List SockEv)
    (s : SendState) (r : SendResult) (hr : s.result = some r)
    (hres : s.isResolved = true) :
    (more.foldl (sendStep ip port) s).result = some r := by
  induction more generalizing s with
  | nil => exact hr
  | cons e es ih =>
      obtain ⟨h1, h2⟩ := sendStep_stable ip port s e r hr hres
      exact ih _ h1 h2

theorem sendRun_iff (ip : String) (port : Int) (evs : List SockEv) :
    ((sendRun ip port evs).isResolved = true ↔
      (sendRun ip port evs).result.isSome = true) :=
  sendFoldl_iff ip port evs sendInit (by simp [sendInit])

/-! ## C4 — timeout semantics of the Delivery Channel -/

/-- C4 (amended): in the current `sendToPrinter` (embedded service and
electron variant), if the socket timeout fires while the call is still
unsettled, the call fails with the timeout reason when no write has
completed, and resolves successfully when the full buffer has been
handed to the socket layer (`dataWritten`).  (The legacy variant rejects
on any timeout, see the counterexample.) -/
theorem c4_timeout_semantics (ip : String) (port : Int) (evs : List SockEv)
    (hres : (sendRun ip port evs).isResolved = false) :
    ((sendRun ip port evs).dataWritten = false →
      (sendRun ip port (evs ++ [SockEv.timeout])).result =
        some (SendResult.err ("Printer connection timeout at " ++ ip ++
          ":" ++ toString port))) ∧
    ((sendRun ip port evs).dataWritten = true →
      (sendRun ip port (evs ++ [SockEv.timeout])).result =
        some SendResult.ok) := by
  have hrw : sendRun ip port (evs ++ [SockEv.timeout]) =
      sendStep ip port (sendRun ip port evs) SockEv.timeout := by
    unfold sendRun
    rw [List.foldl_append]
    rfl
  constructor
  · intro hdw
    rw [hrw]
    simp [sendStep, hres, hdw]
  · intro hdw
    rw [hrw]
    simp [sendStep, hres, hdw]

/-- C4 counterexample: in the legacy `sendToPrinter` variant (also cited
by the claim), the whole buffer is written on connect, yet a following
timeout rejects with the timeout error instead of succeeding. -/
theorem c4_counterexample :
    (legacySendRun [LegacyEv.connect, LegacyEv.timeout]).wroteIssued = true ∧
    (legacySendRun [LegacyEv.connect, LegacyEv.timeout]).result =
      some (SendResult.err "Printer connection timeout") := by
  decide

/-- C4 witness: the amended theorem applied at a timeout-before-write
run and at a timeout-after-write run. -/
theorem c4_timeout_semantics_witness :
    (sendRun "h" 9100 [SockEv.connect, SockEv.timeout]).result =
      some (SendResult.err "Printer connection timeout at h:9100") ∧
    (sendRun "h" 9100
      [SockEv.connect, SockEv.writeCb none, SockEv.timeout]).result =
      some SendResult.ok := by
  constructor
  · exact (c4_timeout_semantics "h" 9100 [SockEv.connect] (by decide)).1
      (by decide)
  · exact (c4_timeout_semantics "h" 9100
      [SockEv.connect, SockEv.writeCb none] (by decide)).2 (by decide)

/-! ## C10 — single settlement of `sendToPrinter` -/

/-- C10 (confirmed): once a `sendToPrinter` run has settled, every later
socket-lifecycle event leaves the settled result unchanged (no double
resolution), and each of the settling events — write-error callback,
timeout, error, close — always leaves the run settled. -/
theorem c10_single_settlement (ip : String) (port : Int) :
    (∀ evs more r, (sendRun ip port evs).result = some r →
      (sendRun ip port (evs ++ more)).result = some r) ∧
    (∀ evs e, (e = SockEv.timeout ∨ e = SockEv.closeEv ∨
        (∃ m, e = SockEv.errorEv m) ∨ (∃ m, e = SockEv.writeCb (some m))) →
      ((sendRun ip port (evs ++ [e])).result).isSome = true) := by
  constructor
  · intro evs more r h
    have hres : (sendRun ip port evs).isResolved = true :=
      (sendRun_iff ip port evs).mpr (by simp [h])
    unfold sendRun at h hres ⊢
    rw [List.foldl_append]
    exact sendFoldl_stable ip port more _ r h hres
  · intro evs e he
    have hrw : sendRun ip port (evs ++ [e]) =
        sendStep ip port (sendRun ip port evs) e := by
      unfold sendRun
      rw [List.foldl_append]
      rfl
    rw [hrw]
    by_cases hres : (sendRun ip port evs).isResolved = true
    · obtain ⟨r, hr⟩ := Option.isSome_iff_exists.mp
        ((sendRun_iff ip port evs).mp hres)
      obtain ⟨h1, -⟩ := sendStep_stable ip port _ e r hr hres
      simp [h1]
    · rw [Bool.not_eq_true] at hres
      rcases he with rfl | rfl | ⟨m, rfl⟩ | ⟨m, rfl⟩ <;>
        cases hdw : (sendRun ip port evs).dataWritten <;>
          simp [sendStep, hres, hdw]

/-- C10 witness: the theorem applied at a settled run extended by a
close event, and at a run settled by a close event. -/
theorem c10_single_settlement_witness :
    (sendRun "p" 9100 ([SockEv.connect, SockEv.timeout] ++
      [SockEv.closeEv])).result =
      some (SendResult.err "Printer connection timeout at p:9100") ∧
    ((sendRun "p" 9100 ([SockEv.connect] ++ [SockEv.closeEv])).result).isSome =
      true := by
  constructor
  · exact (c10_single_settlement "p" 9100).1 [SockEv.connect, SockEv.timeout]
      [SockEv.closeEv] (SendResult.err "Printer connection timeout at p:9100")
      (by decide)
  · exact (c10_single_settlement "p" 9100).2 [SockEv.connect] SockEv.closeEv
      (Or.inr (Or.inl rfl))

/-! ## C3 — per-endpoint serialization -/

/-- C3 (amended): the code performs no per-endpoint serialization — its
only scheduling constraints are within one delivery (start before
finish) — so for any endpoint the schedule in which the second delivery
to that endpoint starts before the first finishes is admissible.  (Each
delivery writes on its own TCP connection, so bytes are still not
interleaved within one connection.) -/
theorem c3_no_serialization (host : String) (port : Int) :
    admissible 2 overlapTrace = true ∧
    ([{ host := host, port := port }, { host := host, port := port }] :
        List PrintJob).getD 0 { host := "", port := 0 } =
      ([{ host := host, port := port }, { host := host, port := port }] :
        List PrintJob).getD 1 { host := "", port := 0 } ∧
    overlapTrace.indexOf (JobEv.jobStart 1) <
      overlapTrace.indexOf (JobEv.jobEnd 0) :=
  ⟨by decide, rfl, by decide⟩

/-- C3 counterexample: the overlapping schedule of two deliveries to the
same concrete endpoint is admissible under the constraints the code
imposes, and it violates the claimed per-endpoint mutual exclusion. -/
theorem c3_counterexample :
    admissible 2 overlapTrace = true ∧
    serializedPerEndpoint
      [{ host := "192.168.192.12", port := 9100 },
       { host := "192.168.192.12", port := 9100 }] overlapTrace = false := by
  decide

end Wasla
